import Mathlib

/-!
Shallow embedding of the pad-motion example program
src/examples/gamepad-and-mouse-server.rs.

Modelling conventions:
* Rust f32 values are modelled by the type F32 below: a finite rational
  payload, or one of the special values nan, posInf, negInf.  Arithmetic on
  finite payloads is modelled exactly over the rationals; every concrete input
  used in a theorem below is exactly representable in f32 and its scaled image
  is computed exactly by f32 arithmetic, so the rational model agrees with the
  machine on those inputs.
* The Rust cast expression v as u8 (f32 to u8) truncates toward zero and
  saturates to the range 0..=255; nan casts to 0.  This is f32AsU8 below.
* Strings are handled as lists of characters; String wrappers convert via
  String.toList.
-/

set_option autoImplicit false
set_option maxRecDepth 8000

/-- A model of a Rust f32 value: a finite (exact) rational payload or one of
the special values. -/
inductive F32 where
  | finite (q : ℚ)
  | nan
  | posInf
  | negInf
deriving DecidableEq, Repr

/-- The Rust cast v as u8 applied to an f32: truncation toward zero, then
saturation into 0..=255; nan casts to 0, negative infinity to 0, positive
infinity to 255.  For a nonnegative rational, truncation toward zero is the
floor. -/
def f32AsU8 : F32 → ℕ
  | .nan => 0
  | .negInf => 0
  | .posInf => 255
  | .finite q => if q < 0 then 0 else min 255 (Int.toNat ⌊q⌋)

/-- The cast q as u8 for a parsed finite float value. -/
def ratAsU8 (q : ℚ) : ℕ := f32AsU8 (.finite q)

/-- The affine map input * 127.0 + 127.0 from line 61 of the source, on the
f32 model: finite payloads are scaled exactly; nan and the infinities are
absorbing for this map exactly as in f32 arithmetic (the scale factor and
offset are positive). -/
def stickScale : F32 → F32
  | .finite q => .finite (q * 127 + 127)
  | .nan => .nan
  | .posInf => .posInf
  | .negInf => .negInf

/-- Source lines 60-62: fn to_stick_value(input: f32) -> u8 is
(input * 127.0 + 127.0) as u8. -/
def to_stick_value (input : F32) : ℕ := f32AsU8 (stickScale input)

/-- Source lines 16-22: struct AppConfig.  gravity_axis is a u8 in the
source, modelled as a natural number (every value written to it comes from
f32AsU8 and so lies in 0..=255). -/
structure AppConfig where
  sensitivity : ℚ
  invert_x : ℚ
  invert_y : ℚ
  gravity_axis : ℕ
  gravity_amount : ℚ
deriving DecidableEq, Repr

/-- Source lines 24-34: impl Default for AppConfig. -/
def AppConfig.default : AppConfig :=
  { sensitivity := 5
    invert_x := -1
    invert_y := 1
    gravity_axis := 1
    gravity_amount := 981/100 }

/-- Source lines 139-143: the gravity vector match on g_axis.  Axis 0 places
the magnitude on X, axis 1 on Y, and every other u8 value falls into the
wildcard arm and places it on Z. -/
def gravityVector (g_axis : ℕ) (g_val : ℚ) : ℚ × ℚ × ℚ :=
  match g_axis with
  | 0 => (g_val, 0, 0)
  | 1 => (0, g_val, 0)
  | _ => (0, 0, g_val)

/-- The first-occurrence split of Rust str::split_once, on character lists:
returns the part before the first occurrence of c and the part after it, or
none when c does not occur. -/
def splitOnceList (c : Char) : List Char → Option (List Char × List Char)
  | [] => none
  | x :: xs =>
    if x = c then some ([], xs)
    else (splitOnceList c xs).map (fun p => (x :: p.1, p.2))

/-- Rust str::trim on character lists (whitespace stripped from both ends;
the ASCII whitespace characters cover every case arising here). -/
def trimChars (l : List Char) : List Char :=
  ((l.dropWhile Char.isWhitespace).reverse.dropWhile Char.isWhitespace).reverse

/-- The numeric value of a string of decimal digits. -/
def natOfDigits (l : List Char) : ℕ :=
  l.foldl (fun n c => 10 * n + (c.toNat - 48)) 0

/-- The exponent part of a float literal after the letter e: an optional sign
followed by at least one digit and nothing else. -/
def parseExpPart (l : List Char) : Option ℤ :=
  let signed : ℤ × List Char :=
    match l with
    | '+' :: r => (1, r)
    | '-' :: r => (-1, r)
    | r => (1, r)
  let ds := signed.2.takeWhile Char.isDigit
  let rest := signed.2.dropWhile Char.isDigit
  if ds.isEmpty then none
  else if rest.isEmpty then some (signed.1 * (natOfDigits ds : ℤ)) else none

/-- A model of Rust str::parse::<f32> restricted to finite decimal literals:
an optional sign, then digits with an optional decimal point (at least one
digit overall), then an optional exponent part.  The value is computed
exactly as a rational; the special literals inf, infinity and nan accepted by
the real parser are outside this model (no claim depends on them), and the
final rounding to f32 is the identity on every concrete literal used below. -/
def parseFloatChars (l : List Char) : Option ℚ :=
  let signed : ℚ × List Char :=
    match l with
    | '+' :: r => (1, r)
    | '-' :: r => (-1, r)
    | r => (1, r)
  let intDigits := signed.2.takeWhile Char.isDigit
  let l2 := signed.2.dropWhile Char.isDigit
  let fracSplit : List Char × List Char :=
    match l2 with
    | '.' :: r => (r.takeWhile Char.isDigit, r.dropWhile Char.isDigit)
    | r => ([], r)
  if intDigits.isEmpty && fracSplit.1.isEmpty then none
  else
    let mant : ℚ :=
      (natOfDigits intDigits : ℚ) + (natOfDigits fracSplit.1 : ℚ) / (10 : ℚ) ^ fracSplit.1.length
    match fracSplit.2 with
    | [] => some (signed.1 * mant)
    | 'e' :: r => (parseExpPart r).map (fun e => signed.1 * mant * (10 : ℚ) ^ e)
    | 'E' :: r => (parseExpPart r).map (fun e => signed.1 * mant * (10 : ℚ) ^ e)
    | _ => none

/-- Source lines 81-93: the body of the per-line loop of the config reloader.
A line without an equals sign is skipped; otherwise the key is trimmed, the
value is trimmed and parsed with 0.0 substituted on parse failure
(unwrap_or), and the recognized keys update the configuration being built;
unrecognized keys fall through to the wildcard arm and change nothing. -/
def applyLineChars (cfg : AppConfig) (line : List Char) : AppConfig :=
  match splitOnceList '=' line with
  | none => cfg
  | some kv =>
    let key := trimChars kv.1
    let val : ℚ := (parseFloatChars (trimChars kv.2)).getD 0
    if key = "sensitivity".toList then { cfg with sensitivity := val }
    else if key = "invert_x".toList then { cfg with invert_x := if val > 0 then 1 else -1 }
    else if key = "invert_y".toList then { cfg with invert_y := if val > 0 then 1 else -1 }
    else if key = "gravity_axis".toList then { cfg with gravity_axis := ratAsU8 val }
    else if key = "gravity_amount".toList then { cfg with gravity_amount := val }
    else cfg

/-- Source lines 78-94: on a successful read the reloader builds a fresh
default configuration and then folds the per-line update over the lines of
the file. -/
def reloadConfigLines (ls : List (List Char)) : AppConfig :=
  ls.foldl applyLineChars AppConfig.default

/-- String-level wrapper for a list of lines. -/
def reloadConfig (ls : List String) : AppConfig :=
  reloadConfigLines (ls.map String.toList)

/-- Splitting a character list at every occurrence of a separator (the
ordinary split that keeps a trailing empty part). -/
def splitCharList (c : Char) : List Char → List (List Char)
  | [] => [[]]
  | x :: xs =>
    if x = c then [] :: splitCharList c xs
    else
      match splitCharList c xs with
      | [] => [[x]]
      | p :: ps => (x :: p) :: ps

/-- Dropping one trailing carriage return, as Rust str::lines does to each
line it yields. -/
def stripCR (l : List Char) : List Char :=
  if l.getLast? = some '\r' then l.dropLast else l

/-- Rust str::lines on character lists: split at every line feed, drop the
empty part produced by a trailing line feed (or the single empty part of the
empty string), and strip one trailing carriage return from each line. -/
def linesOfChars (l : List Char) : List (List Char) :=
  let parts := splitCharList '\n' l
  let parts := if parts.getLast? = some [] then parts.dropLast else parts
  parts.map stripCR

/-- A successful read of the whole file: split into lines and reload. -/
def reloadFromContents (contents : String) : AppConfig :=
  reloadConfigLines (linesOfChars contents.toList)

/-- Source lines 77-100: one cycle of the config reloader thread against the
outcome of fs::read_to_string, with the store contents made explicit.  On a
successful read the store is replaced by the freshly built configuration; on
a read failure the if-let falls through and the store keeps its previous
value. -/
def reloaderStep (store : AppConfig) (readResult : Option String) : AppConfig :=
  match readResult with
  | some contents => reloadFromContents contents
  | none => store

/-- The gilrs button identifiers used by the example program (source lines
154-186). -/
inductive Button where
  | DPadLeft | DPadDown | DPadRight | DPadUp
  | Start | RightThumb | LeftThumb | Select
  | North | East | South | West
  | RightTrigger | LeftTrigger | RightTrigger2 | LeftTrigger2
  | Mode
deriving DecidableEq, Repr

/-- The gilrs axis identifiers used by the example program (source lines
171-174). -/
inductive Axis where
  | LeftStickX | LeftStickY | RightStickX | RightStickY
deriving DecidableEq, Repr

/-- The view of a physical gamepad the example program reads through gilrs:
pressed state per button, optional analog data per button (none when the
driver has no data for that button), and a raw f32 value per axis. -/
structure Gamepad where
  is_pressed : Button → Bool
  button_data : Button → Option ℚ
  axis_value : Axis → F32

/-- Source lines 148-150: the analog_button_value closure,
button_data(button).map(|data| (data.value() * 255.0) as u8).unwrap_or(0). -/
def analog_button_value (gamepad : Gamepad) (button : Button) : ℕ :=
  match gamepad.button_data button with
  | some v => ratAsU8 (v * 255)
  | none => 0

/-- Modelled from the spec: the ControllerData frame type lives in the
pad_motion protocol crate, which is not under src/; only the fields the
example program sets are modelled here.  Booleans are digital button states,
naturals in 0..=255 are analog magnitudes and stick positions, rationals are
the f32 motion fields, and motion_data_timestamp is the u64 microsecond
timestamp. -/
structure ControllerData where
  connected : Bool
  d_pad_left : Bool
  d_pad_down : Bool
  d_pad_right : Bool
  d_pad_up : Bool
  start : Bool
  right_stick_button : Bool
  left_stick_button : Bool
  select : Bool
  triangle : Bool
  circle : Bool
  cross : Bool
  square : Bool
  r1 : Bool
  l1 : Bool
  r2 : Bool
  l2 : Bool
  ps : ℕ
  left_stick_x : ℕ
  left_stick_y : ℕ
  right_stick_x : ℕ
  right_stick_y : ℕ
  analog_d_pad_left : ℕ
  analog_d_pad_down : ℕ
  analog_d_pad_right : ℕ
  analog_d_pad_up : ℕ
  analog_triangle : ℕ
  analog_circle : ℕ
  analog_cross : ℕ
  analog_square : ℕ
  analog_r1 : ℕ
  analog_l1 : ℕ
  analog_r2 : ℕ
  analog_l2 : ℕ
  motion_data_timestamp : ℕ
  accelerometer_x : ℚ
  accelerometer_y : ℚ
  accelerometer_z : ℚ
  gyroscope_pitch : ℚ
  gyroscope_yaw : ℚ
  gyroscope_roll : ℚ
deriving DecidableEq, Repr

/-- Modelled from the spec: ControllerData::default() of the pad_motion
protocol crate (used by the .. Default::default() spreads on source lines
197 and 212).  Per the spec, button and stick fields take their zero/false
defaults with both analog sticks centered at 127, the connection flag is
false, and all motion fields are zero. -/
def ControllerData.default : ControllerData where
  connected := false
  d_pad_left := false
  d_pad_down := false
  d_pad_right := false
  d_pad_up := false
  start := false
  right_stick_button := false
  left_stick_button := false
  select := false
  triangle := false
  circle := false
  cross := false
  square := false
  r1 := false
  l1 := false
  r2 := false
  l2 := false
  ps := 0
  left_stick_x := 127
  left_stick_y := 127
  right_stick_x := 127
  right_stick_y := 127
  analog_d_pad_left := 0
  analog_d_pad_down := 0
  analog_d_pad_right := 0
  analog_d_pad_up := 0
  analog_triangle := 0
  analog_circle := 0
  analog_cross := 0
  analog_square := 0
  analog_r1 := 0
  analog_l1 := 0
  analog_r2 := 0
  analog_l2 := 0
  motion_data_timestamp := 0
  accelerometer_x := 0
  accelerometer_y := 0
  accelerometer_z := 0
  gyroscope_pitch := 0
  gyroscope_yaw := 0
  gyroscope_roll := 0

/-- Source lines 129-215: one iteration of the synthesis loop after the
pointer deltas have been summed, as a function of the summed deltas, the
configuration snapshot, the elapsed-microseconds timestamp and the first
gamepad returned by gilrs (none when no physical gamepad is present).
Lines 134-136 compute the gyroscope pair from the snapshot, lines 139-143
the gravity vector, and lines 146-215 assemble the frame in the two branches
of the if-let on first_gamepad. -/
def controller_data (delta_rotation_x delta_rotation_y : ℚ) (cfg : AppConfig)
    (timestamp : ℕ) (first_gamepad : Option Gamepad) : ControllerData :=
  let gyro_yaw := delta_rotation_x * cfg.sensitivity * cfg.invert_x
  let gyro_pitch := delta_rotation_y * cfg.sensitivity * cfg.invert_y
  let accel := gravityVector cfg.gravity_axis cfg.gravity_amount
  match first_gamepad with
  | some gamepad =>
    { ControllerData.default with
      connected := true
      d_pad_left := gamepad.is_pressed .DPadLeft
      d_pad_down := gamepad.is_pressed .DPadDown
      d_pad_right := gamepad.is_pressed .DPadRight
      d_pad_up := gamepad.is_pressed .DPadUp
      start := gamepad.is_pressed .Start
      right_stick_button := gamepad.is_pressed .RightThumb
      left_stick_button := gamepad.is_pressed .LeftThumb
      select := gamepad.is_pressed .Select
      triangle := gamepad.is_pressed .North
      circle := gamepad.is_pressed .East
      cross := gamepad.is_pressed .South
      square := gamepad.is_pressed .West
      r1 := gamepad.is_pressed .RightTrigger
      l1 := gamepad.is_pressed .LeftTrigger
      r2 := gamepad.is_pressed .RightTrigger2
      l2 := gamepad.is_pressed .LeftTrigger2
      ps := analog_button_value gamepad .Mode
      left_stick_x := to_stick_value (gamepad.axis_value .LeftStickX)
      left_stick_y := to_stick_value (gamepad.axis_value .LeftStickY)
      right_stick_x := to_stick_value (gamepad.axis_value .RightStickX)
      right_stick_y := to_stick_value (gamepad.axis_value .RightStickY)
      analog_d_pad_left := analog_button_value gamepad .DPadLeft
      analog_d_pad_down := analog_button_value gamepad .DPadDown
      analog_d_pad_right := analog_button_value gamepad .DPadRight
      analog_d_pad_up := analog_button_value gamepad .DPadUp
      analog_triangle := analog_button_value gamepad .North
      analog_circle := analog_button_value gamepad .East
      analog_cross := analog_button_value gamepad .South
      analog_square := analog_button_value gamepad .West
      analog_r1 := analog_button_value gamepad .RightTrigger
      analog_l1 := analog_button_value gamepad .LeftTrigger
      analog_r2 := analog_button_value gamepad .RightTrigger2
      analog_l2 := analog_button_value gamepad .LeftTrigger2
      motion_data_timestamp := timestamp
      accelerometer_x := accel.1
      accelerometer_y := accel.2.1
      accelerometer_z := accel.2.2
      gyroscope_pitch := gyro_pitch
      gyroscope_yaw := gyro_yaw
      gyroscope_roll := 0 }
  | none =>
    { ControllerData.default with
      connected := true
      motion_data_timestamp := timestamp
      accelerometer_x := accel.1
      accelerometer_y := accel.2.1
      accelerometer_z := accel.2.2
      gyroscope_pitch := gyro_pitch
      gyroscope_yaw := gyro_yaw
      gyroscope_roll := 0 }

/-- The trimmed key of a config line, when the line contains an equals sign:
the part the match on source line 85 dispatches on. -/
def lineKey (l : List Char) : Option (List Char) :=
  (splitOnceList '=' l).map (fun kv => trimChars kv.1)

/-- The spec predicate of claim C8: exactly one of the three components of a
vector is nonzero. -/
def exactlyOneNonzero (v : ℚ × ℚ × ℚ) : Prop :=
  (v.1 ≠ 0 ∧ v.2.1 = 0 ∧ v.2.2 = 0) ∨
  (v.1 = 0 ∧ v.2.1 ≠ 0 ∧ v.2.2 = 0) ∨
  (v.1 = 0 ∧ v.2.1 = 0 ∧ v.2.2 ≠ 0)

/-- The accelerometer components of a frame as a vector. -/
def accelOf (d : ControllerData) : ℚ × ℚ × ℚ :=
  (d.accelerometer_x, d.accelerometer_y, d.accelerometer_z)


/-! ## Helper lemmas -/

/-- On the claimed domain the stick conversion is the floor of the scaled
value (truncation toward zero of a nonnegative value). -/
theorem to_stick_value_eq_floor (v : ℚ) (h1 : -1 ≤ v) (h2 : v ≤ 1) :
    to_stick_value (.finite v) = (⌊v * 127 + 127⌋).toNat := by
  have h0 : ¬ (v * 127 + 127 < 0) := by push_neg; nlinarith
  have h254 : ⌊v * 127 + 127⌋ ≤ 254 := by
    have hle : v * 127 + 127 ≤ 254 := by nlinarith
    calc ⌊v * 127 + 127⌋ ≤ ⌊(254 : ℚ)⌋ := Int.floor_le_floor hle
    _ = 254 := by norm_num
  show f32AsU8 (.finite (v * 127 + 127)) = _
  simp only [f32AsU8, if_neg h0]
  omega

/-- Every u8 value of at least 2 falls into the wildcard arm of the gravity
match. -/
theorem gravityVector_of_two_le (n : ℕ) (g : ℚ) (h : 2 ≤ n) :
    gravityVector n g = (0, 0, g) := by
  match n, h with
  | n + 2, _ => rfl

/-- Splitting at the first separator when the part before it is
separator-free. -/
theorem splitOnceList_append (key tail : List Char) (c : Char) (hk : c ∉ key) :
    splitOnceList c (key ++ c :: tail) = some (key, tail) := by
  induction key with
  | nil => simp [splitOnceList]
  | cons x xs ih =>
    simp only [List.mem_cons, not_or] at hk
    simp only [List.cons_append, splitOnceList, List.append_eq]
    rw [if_neg (fun hxc => hk.1 hxc.symm), ih hk.2]
    rfl

/-- A line whose value does not parse is processed exactly as if its value
were the literal 0. -/
theorem applyLine_unparsable (cfg : AppConfig) (key value : List Char)
    (hk : '=' ∉ key) (hv : parseFloatChars (trimChars value) = none) :
    applyLineChars cfg (key ++ '=' :: value) = applyLineChars cfg (key ++ ['=', '0']) := by
  have h0 : (['=', '0'] : List Char) = '=' :: ['0'] := rfl
  unfold applyLineChars
  rw [h0, splitOnceList_append key value '=' hk, splitOnceList_append key ['0'] '=' hk]
  have hz : (parseFloatChars (trimChars ['0'])).getD 0 = 0 := by with_unfolding_all decide
  dsimp only
  rw [hv, hz]
  rfl

/-- The sensitivity field is untouched by lines that do not carry the
sensitivity key. -/
theorem foldl_sensitivity_of_absent (ls : List (List Char)) (cfg : AppConfig)
    (h : ∀ l ∈ ls, lineKey l ≠ some ("sensitivity".toList)) :
    (ls.foldl applyLineChars cfg).sensitivity = cfg.sensitivity := by
  induction ls generalizing cfg with
  | nil => rfl
  | cons l ls ih =>
    rw [List.foldl_cons, ih _ (fun x hx => h x (List.mem_cons_of_mem _ hx))]
    have hl := h l (List.mem_cons_self _ _)
    unfold lineKey at hl
    unfold applyLineChars
    rcases hsplit : splitOnceList '=' l with _ | kv
    · rfl
    · rw [hsplit] at hl
      simp only [Option.map_some', ne_eq, Option.some.injEq] at hl
      dsimp only
      split_ifs <;> simp_all

/-- The invert_x field is untouched by lines that do not carry the invert_x
key. -/
theorem foldl_invert_x_of_absent (ls : List (List Char)) (cfg : AppConfig)
    (h : ∀ l ∈ ls, lineKey l ≠ some ("invert_x".toList)) :
    (ls.foldl applyLineChars cfg).invert_x = cfg.invert_x := by
  induction ls generalizing cfg with
  | nil => rfl
  | cons l ls ih =>
    rw [List.foldl_cons, ih _ (fun x hx => h x (List.mem_cons_of_mem _ hx))]
    have hl := h l (List.mem_cons_self _ _)
    unfold lineKey at hl
    unfold applyLineChars
    rcases hsplit : splitOnceList '=' l with _ | kv
    · rfl
    · rw [hsplit] at hl
      simp only [Option.map_some', ne_eq, Option.some.injEq] at hl
      dsimp only
      split_ifs <;> simp_all

/-- The invert_y field is untouched by lines that do not carry the invert_y
key. -/
theorem foldl_invert_y_of_absent (ls : List (List Char)) (cfg : AppConfig)
    (h : ∀ l ∈ ls, lineKey l ≠ some ("invert_y".toList)) :
    (ls.foldl applyLineChars cfg).invert_y = cfg.invert_y := by
  induction ls generalizing cfg with
  | nil => rfl
  | cons l ls ih =>
    rw [List.foldl_cons, ih _ (fun x hx => h x (List.mem_cons_of_mem _ hx))]
    have hl := h l (List.mem_cons_self _ _)
    unfold lineKey at hl
    unfold applyLineChars
    rcases hsplit : splitOnceList '=' l with _ | kv
    · rfl
    · rw [hsplit] at hl
      simp only [Option.map_some', ne_eq, Option.some.injEq] at hl
      dsimp only
      split_ifs <;> simp_all

/-- The gravity_axis field is untouched by lines that do not carry the
gravity_axis key. -/
theorem foldl_gravity_axis_of_absent (ls : List (List Char)) (cfg : AppConfig)
    (h : ∀ l ∈ ls, lineKey l ≠ some ("gravity_axis".toList)) :
    (ls.foldl applyLineChars cfg).gravity_axis = cfg.gravity_axis := by
  induction ls generalizing cfg with
  | nil => rfl
  | cons l ls ih =>
    rw [List.foldl_cons, ih _ (fun x hx => h x (List.mem_cons_of_mem _ hx))]
    have hl := h l (List.mem_cons_self _ _)
    unfold lineKey at hl
    unfold applyLineChars
    rcases hsplit : splitOnceList '=' l with _ | kv
    · rfl
    · rw [hsplit] at hl
      simp only [Option.map_some', ne_eq, Option.some.injEq] at hl
      dsimp only
      split_ifs <;> simp_all

/-- The gravity_amount field is untouched by lines that do not carry the
gravity_amount key. -/
theorem foldl_gravity_amount_of_absent (ls : List (List Char)) (cfg : AppConfig)
    (h : ∀ l ∈ ls, lineKey l ≠ some ("gravity_amount".toList)) :
    (ls.foldl applyLineChars cfg).gravity_amount = cfg.gravity_amount := by
  induction ls generalizing cfg with
  | nil => rfl
  | cons l ls ih =>
    rw [List.foldl_cons, ih _ (fun x hx => h x (List.mem_cons_of_mem _ hx))]
    have hl := h l (List.mem_cons_self _ _)
    unfold lineKey at hl
    unfold applyLineChars
    rcases hsplit : splitOnceList '=' l with _ | kv
    · rfl
    · rw [hsplit] at hl
      simp only [Option.map_some', ne_eq, Option.some.injEq] at hl
      dsimp only
      split_ifs <;> simp_all

/-! ## Claim theorems -/

/-- C1 counterexample: the stick-value conversion does not equal
round(v * 127 + 127) on the whole domain.  At v = 1/4 (exactly representable
in f32, with exactly computed scaled value 158.75) the conversion truncates
to 158 while rounding gives 159. -/
theorem C1_round_counterexample :
    to_stick_value (.finite (1/4)) ≠ (round ((1/4 : ℚ) * 127 + 127)).toNat := by
  have h : round ((1/4 : ℚ) * 127 + 127) = 159 := by norm_num [round_eq]
  rw [h]
  with_unfolding_all decide

/-- C1 (amended): for every normalized stick input v in [-1, 1] the
stick-value conversion equals the truncation (floor) of v * 127 + 127, not
its rounding; the mapping is monotonic over that domain and maps -1 to 0,
0 to 127 and 1 to 254. -/
theorem C1_stick_mapping_truncates :
    (∀ v : ℚ, -1 ≤ v → v ≤ 1 →
      to_stick_value (.finite v) = (⌊v * 127 + 127⌋).toNat) ∧
    (∀ u v : ℚ, -1 ≤ u → u ≤ v → v ≤ 1 →
      to_stick_value (.finite u) ≤ to_stick_value (.finite v)) ∧
    to_stick_value (.finite (-1)) = 0 ∧
    to_stick_value (.finite 0) = 127 ∧
    to_stick_value (.finite 1) = 254 := by
  refine ⟨fun v h1 h2 => to_stick_value_eq_floor v h1 h2, fun u v h1 huv h2 => ?_, ?_, ?_, ?_⟩
  · rw [to_stick_value_eq_floor u h1 (huv.trans h2),
      to_stick_value_eq_floor v (h1.trans huv) h2]
    exact Int.toNat_le_toNat (Int.floor_le_floor (by nlinarith))
  · with_unfolding_all decide
  · with_unfolding_all decide
  · with_unfolding_all decide

/-- Witness for C1_stick_mapping_truncates at the concrete inputs 1/2 (for
the truncation identity) and 0 ≤ 1/2 (for monotonicity). -/
theorem C1_stick_mapping_truncates_witness :
    to_stick_value (.finite (1/2)) = (⌊(1/2 : ℚ) * 127 + 127⌋).toNat ∧
    to_stick_value (.finite 0) ≤ to_stick_value (.finite (1/2)) :=
  ⟨C1_stick_mapping_truncates.1 (1/2) (by norm_num) (by norm_num),
   C1_stick_mapping_truncates.2.1 0 (1/2) (by norm_num) (by norm_num) (by norm_num)⟩

/-- C2 counterexample: the parsed gravity_axis value -1 is neither 0 nor 1,
yet the configuration built from the line gravity_axis=-1 does not select
axis Z: the f32-to-u8 cast saturates the negative value to 0, which selects
axis X. -/
theorem C2_negative_counterexample :
    gravityVector (reloadConfig ["gravity_axis=-1"]).gravity_axis
        (reloadConfig ["gravity_axis=-1"]).gravity_amount ≠
      (0, 0, (reloadConfig ["gravity_axis=-1"]).gravity_amount) := by
  with_unfolding_all decide

/-- C2 (amended): the parsed gravity_axis float is converted by the
saturating truncating f32-to-u8 cast, so every value below 1 — including all
negative values and the value produced for nan — selects axis X, values in
[1, 2) select axis Y, and every value of 2 or more — including arbitrarily
large ones — selects axis Z. -/
theorem C2_gravity_axis_selection (q g : ℚ) :
    (q < 1 → gravityVector (ratAsU8 q) g = (g, 0, 0)) ∧
    (1 ≤ q → q < 2 → gravityVector (ratAsU8 q) g = (0, g, 0)) ∧
    (2 ≤ q → gravityVector (ratAsU8 q) g = (0, 0, g)) ∧
    gravityVector (f32AsU8 .nan) g = (g, 0, 0) := by
  refine ⟨fun h => ?_, fun h1 h2 => ?_, fun h => ?_, rfl⟩
  · have hz : ratAsU8 q = 0 := by
      simp only [ratAsU8, f32AsU8]
      split_ifs with h0
      · rfl
      · push_neg at h0
        rw [Int.floor_eq_zero_iff.mpr ⟨h0, h⟩]
        rfl
    rw [hz]
    rfl
  · have hone : ratAsU8 q = 1 := by
      simp only [ratAsU8, f32AsU8]
      have h0 : ¬ (q < 0) := by push_neg; linarith
      rw [if_neg h0, show ⌊q⌋ = 1 from Int.floor_eq_iff.mpr ⟨by exact_mod_cast h1, by push_cast; linarith⟩]
      rfl
    rw [hone]
    rfl
  · apply gravityVector_of_two_le
    simp only [ratAsU8, f32AsU8]
    have h0 : ¬ (q < 0) := by push_neg; linarith
    rw [if_neg h0]
    have h2 : (2 : ℤ) ≤ ⌊q⌋ := Int.le_floor.mpr (by push_cast; linarith)
    omega

/-- Witness for C2_gravity_axis_selection at the concrete parsed values -1
(axis X), 3/2 (axis Y) and 300 (axis Z). -/
theorem C2_gravity_axis_selection_witness :
    gravityVector (ratAsU8 (-1)) (981/100) = (981/100, 0, 0) ∧
    gravityVector (ratAsU8 (3/2)) (981/100) = (0, 981/100, 0) ∧
    gravityVector (ratAsU8 300) (981/100) = (0, 0, 981/100) :=
  ⟨(C2_gravity_axis_selection (-1) (981/100)).1 (by norm_num),
   (C2_gravity_axis_selection (3/2) (981/100)).2.1 (by norm_num) (by norm_num),
   (C2_gravity_axis_selection 300 (981/100)).2.2.1 (by norm_num)⟩

/-- C3: whatever the prior store contents, a successful reload from a file
whose only line is sensitivity=10.0 produces the default configuration
(invert_x = -1, invert_y = 1, gravity axis Y, gravity magnitude 9.81) except
sensitivity = 10; no field retains a prior non-default value because the
reloader rebuilds from defaults and ignores the prior value entirely. -/
theorem C3_reload_single_sensitivity (prior : AppConfig) :
    reloaderStep prior (some "sensitivity=10.0") =
      { sensitivity := 10, invert_x := -1, invert_y := 1,
        gravity_axis := 1, gravity_amount := 981/100 } := by
  show reloadFromContents "sensitivity=10.0" = _
  with_unfolding_all decide

/-- C4 counterexample: the recognized key sensitivity is present with the
unparsable value abc, yet the reloaded configuration does not leave the key
at its default (5): the unwrap_or substitutes 0.0 and the key is overridden
with it. -/
theorem C4_default_counterexample :
    (reloadConfig ["sensitivity=abc"]).sensitivity ≠ AppConfig.default.sensitivity := by
  with_unfolding_all decide

/-- C4 (amended): a recognized key keeps its default value exactly when it is
absent from every line of the file; a key that is present is overridden even
when its value fails to parse, in which case the substituted value 0.0 is
assigned (shown here for sensitivity: a present-but-unparsable value yields
sensitivity = 0, not the default). -/
theorem C4_absent_key_default (ls : List (List Char)) :
    ((∀ l ∈ ls, lineKey l ≠ some ("sensitivity".toList)) →
      (reloadConfigLines ls).sensitivity = AppConfig.default.sensitivity) ∧
    ((∀ l ∈ ls, lineKey l ≠ some ("invert_x".toList)) →
      (reloadConfigLines ls).invert_x = AppConfig.default.invert_x) ∧
    ((∀ l ∈ ls, lineKey l ≠ some ("invert_y".toList)) →
      (reloadConfigLines ls).invert_y = AppConfig.default.invert_y) ∧
    ((∀ l ∈ ls, lineKey l ≠ some ("gravity_axis".toList)) →
      (reloadConfigLines ls).gravity_axis = AppConfig.default.gravity_axis) ∧
    ((∀ l ∈ ls, lineKey l ≠ some ("gravity_amount".toList)) →
      (reloadConfigLines ls).gravity_amount = AppConfig.default.gravity_amount) ∧
    (∀ value : List Char, parseFloatChars (trimChars value) = none →
      (reloadConfigLines [("sensitivity".toList ++ '=' :: value)]).sensitivity = 0) :=
  ⟨fun h => foldl_sensitivity_of_absent ls _ h,
   fun h => foldl_invert_x_of_absent ls _ h,
   fun h => foldl_invert_y_of_absent ls _ h,
   fun h => foldl_gravity_axis_of_absent ls _ h,
   fun h => foldl_gravity_amount_of_absent ls _ h,
   fun value hv => by
    show (applyLineChars AppConfig.default ("sensitivity".toList ++ '=' :: value)).sensitivity = 0
    rw [applyLine_unparsable AppConfig.default _ value (by decide) hv]
    with_unfolding_all decide⟩

/-- Witness for C4_absent_key_default: a file mentioning only gravity_amount
leaves sensitivity at its default, and a file assigning the unparsable value
abc to sensitivity overrides it with 0. -/
theorem C4_absent_key_default_witness :
    (reloadConfigLines ["gravity_amount=3.5".toList]).sensitivity =
        AppConfig.default.sensitivity ∧
    (reloadConfigLines [("sensitivity".toList ++ '=' :: "abc".toList)]).sensitivity = 0 :=
  ⟨(C4_absent_key_default ["gravity_amount=3.5".toList]).1 (by decide),
   (C4_absent_key_default []).2.2.2.2.2 "abc".toList (by decide)⟩

/-- C5: a recognized key with an unparsable value is processed exactly as if
the value were the literal 0 (so the field receives the substitute 0.0, sign
mappings see the float 0.0), and the remaining lines of the file are still
processed afterwards — the fold continues on the rest unconditionally. -/
theorem C5_unparsable_zero (cfg : AppConfig) (key value : List Char)
    (rest : List (List Char)) (hk : '=' ∉ key)
    (hv : parseFloatChars (trimChars value) = none) :
    List.foldl applyLineChars cfg ((key ++ '=' :: value) :: rest) =
      List.foldl applyLineChars (applyLineChars cfg (key ++ ['=', '0'])) rest := by
  rw [List.foldl_cons, applyLine_unparsable cfg key value hk hv]

/-- Witness for C5_unparsable_zero: the line sensitivity=abc is treated as
sensitivity=0 and the following gravity_amount line is still applied. -/
theorem C5_unparsable_zero_witness :
    List.foldl applyLineChars AppConfig.default
        (("sensitivity".toList ++ '=' :: "abc".toList) :: ["gravity_amount=3.5".toList]) =
      List.foldl applyLineChars
        (applyLineChars AppConfig.default ("sensitivity".toList ++ ['=', '0']))
        ["gravity_amount=3.5".toList] :=
  C5_unparsable_zero AppConfig.default "sensitivity".toList "abc".toList
    ["gravity_amount=3.5".toList] (by decide) (by decide)

/-- C6: a reload cycle whose read fails (missing or unreadable file) leaves
the configuration store exactly as it was — the if-let on the read result
falls through without touching the store, whatever its current contents. -/
theorem C6_missing_file_keeps_store (prior : AppConfig) :
    reloaderStep prior none = prior := rfl

/-- C7: for all summed pointer deltas, every configuration snapshot and
either branch of the gamepad if-let, the synthesized frame has
yaw = dx * sensitivity * invert_x and pitch = dy * sensitivity * invert_y
exactly, and roll is always 0. -/
theorem C7_gyro_formula (dx dy : ℚ) (cfg : AppConfig) (ts : ℕ)
    (pad : Option Gamepad) :
    (controller_data dx dy cfg ts pad).gyroscope_yaw =
        dx * cfg.sensitivity * cfg.invert_x ∧
    (controller_data dx dy cfg ts pad).gyroscope_pitch =
        dy * cfg.sensitivity * cfg.invert_y ∧
    (controller_data dx dy cfg ts pad).gyroscope_roll = 0 := by
  cases pad <;> exact ⟨rfl, rfl, rfl⟩

/-- C8 counterexample: a configuration with gravity magnitude 0 (reachable,
for example, from the line gravity_amount=0 or an unparsable
gravity_amount value) makes every accelerometer component zero, so no
component is nonzero and the claimed "exactly one nonzero component" fails. -/
theorem C8_zero_magnitude_counterexample :
    ¬ exactlyOneNonzero (accelOf (controller_data 0 0
        { AppConfig.default with gravity_amount := 0 } 0 none)) := by
  unfold exactlyOneNonzero
  with_unfolding_all decide

/-- C8 (amended): in every synthesized frame, the accelerometer component
selected by gravity_axis equals gravity_amount and the other two components
are exactly 0; whenever gravity_amount is nonzero — in particular for the
default 9.81 — exactly one component is nonzero and it equals
gravity_amount.  When gravity_amount is zero, all three components are
zero. -/
theorem C8_gravity_invariant (dx dy : ℚ) (cfg : AppConfig) (ts : ℕ)
    (pad : Option Gamepad) :
    (accelOf (controller_data dx dy cfg ts pad) = (cfg.gravity_amount, 0, 0) ∨
     accelOf (controller_data dx dy cfg ts pad) = (0, cfg.gravity_amount, 0) ∨
     accelOf (controller_data dx dy cfg ts pad) = (0, 0, cfg.gravity_amount)) ∧
    (cfg.gravity_amount ≠ 0 →
      exactlyOneNonzero (accelOf (controller_data dx dy cfg ts pad))) := by
  have hacc : accelOf (controller_data dx dy cfg ts pad) =
      gravityVector cfg.gravity_axis cfg.gravity_amount := by
    cases pad <;> rfl
  rw [hacc]
  rcases hax : cfg.gravity_axis with _ | _ | n
  · exact ⟨Or.inl rfl, fun hg => Or.inl ⟨hg, rfl, rfl⟩⟩
  · exact ⟨Or.inr (Or.inl rfl), fun hg => Or.inr (Or.inl ⟨rfl, hg, rfl⟩)⟩
  · exact ⟨Or.inr (Or.inr rfl), fun hg => Or.inr (Or.inr ⟨rfl, rfl, hg⟩)⟩

/-- Witness for C8_gravity_invariant at the default configuration, whose
gravity magnitude 9.81 is nonzero. -/
theorem C8_gravity_invariant_witness :
    exactlyOneNonzero (accelOf (controller_data 0 0 AppConfig.default 0 none)) :=
  (C8_gravity_invariant 0 0 AppConfig.default 0 none).2
    (by norm_num [AppConfig.default])

/-- C9: in every iteration with no physical gamepad present, the synthesized
frame has all digital buttons false, all analog button magnitudes 0, both
analog sticks centered at 127 on each axis, connected true, and the
accelerometer, gyroscope and timestamp fields still populated from the
configuration snapshot and the summed pointer deltas. -/
theorem C9_no_gamepad_frame (dx dy : ℚ) (cfg : AppConfig) (ts : ℕ) :
    (controller_data dx dy cfg ts none).connected = true ∧
    (controller_data dx dy cfg ts none).d_pad_left = false ∧
    (controller_data dx dy cfg ts none).d_pad_down = false ∧
    (controller_data dx dy cfg ts none).d_pad_right = false ∧
    (controller_data dx dy cfg ts none).d_pad_up = false ∧
    (controller_data dx dy cfg ts none).start = false ∧
    (controller_data dx dy cfg ts none).right_stick_button = false ∧
    (controller_data dx dy cfg ts none).left_stick_button = false ∧
    (controller_data dx dy cfg ts none).select = false ∧
    (controller_data dx dy cfg ts none).triangle = false ∧
    (controller_data dx dy cfg ts none).circle = false ∧
    (controller_data dx dy cfg ts none).cross = false ∧
    (controller_data dx dy cfg ts none).square = false ∧
    (controller_data dx dy cfg ts none).r1 = false ∧
    (controller_data dx dy cfg ts none).l1 = false ∧
    (controller_data dx dy cfg ts none).r2 = false ∧
    (controller_data dx dy cfg ts none).l2 = false ∧
    (controller_data dx dy cfg ts none).ps = 0 ∧
    (controller_data dx dy cfg ts none).analog_d_pad_left = 0 ∧
    (controller_data dx dy cfg ts none).analog_d_pad_down = 0 ∧
    (controller_data dx dy cfg ts none).analog_d_pad_right = 0 ∧
    (controller_data dx dy cfg ts none).analog_d_pad_up = 0 ∧
    (controller_data dx dy cfg ts none).analog_triangle = 0 ∧
    (controller_data dx dy cfg ts none).analog_circle = 0 ∧
    (controller_data dx dy cfg ts none).analog_cross = 0 ∧
    (controller_data dx dy cfg ts none).analog_square = 0 ∧
    (controller_data dx dy cfg ts none).analog_r1 = 0 ∧
    (controller_data dx dy cfg ts none).analog_l1 = 0 ∧
    (controller_data dx dy cfg ts none).analog_r2 = 0 ∧
    (controller_data dx dy cfg ts none).analog_l2 = 0 ∧
    (controller_data dx dy cfg ts none).left_stick_x = 127 ∧
    (controller_data dx dy cfg ts none).left_stick_y = 127 ∧
    (controller_data dx dy cfg ts none).right_stick_x = 127 ∧
    (controller_data dx dy cfg ts none).right_stick_y = 127 ∧
    (controller_data dx dy cfg ts none).motion_data_timestamp = ts ∧
    accelOf (controller_data dx dy cfg ts none) =
        gravityVector cfg.gravity_axis cfg.gravity_amount ∧
    (controller_data dx dy cfg ts none).gyroscope_yaw =
        dx * cfg.sensitivity * cfg.invert_x ∧
    (controller_data dx dy cfg ts none).gyroscope_pitch =
        dy * cfg.sensitivity * cfg.invert_y ∧
    (controller_data dx dy cfg ts none).gyroscope_roll = 0 := by
  repeat' apply And.intro
  all_goals rfl

/-- C10: the stick conversion is total and saturating on the full f32 range:
a negative scaled value yields 0, a scaled value above 255 yields 255, the
special inputs nan, positive infinity and negative infinity yield 0, 255 and
0 respectively, and every possible input yields a byte within 0..=255 —
never a panic or a wrapped value. -/
theorem C10_stick_saturation (q : ℚ) :
    (q * 127 + 127 < 0 → to_stick_value (.finite q) = 0) ∧
    (255 < q * 127 + 127 → to_stick_value (.finite q) = 255) ∧
    to_stick_value .nan = 0 ∧
    to_stick_value .posInf = 255 ∧
    to_stick_value .negInf = 0 ∧
    (∀ v : F32, to_stick_value v ≤ 255) := by
  refine ⟨fun h => ?_, fun h => ?_, rfl, rfl, rfl, fun v => ?_⟩
  · show f32AsU8 (.finite (q * 127 + 127)) = 0
    simp only [f32AsU8, if_pos h]
  · show f32AsU8 (.finite (q * 127 + 127)) = 255
    have h0 : ¬ (q * 127 + 127 < 0) := by push_neg; linarith
    have h255 : (255 : ℤ) ≤ ⌊q * 127 + 127⌋ := Int.le_floor.mpr (by push_cast; linarith)
    simp only [f32AsU8, if_neg h0]
    omega
  · cases v with
    | finite p =>
      show f32AsU8 (.finite (p * 127 + 127)) ≤ 255
      simp only [f32AsU8]
      split_ifs <;> omega
    | nan => decide
    | posInf => decide
    | negInf => decide

/-- Witness for C10_stick_saturation at the concrete inputs -2 (scaled value
-127, clamped to 0) and 2 (scaled value 381, clamped to 255). -/
theorem C10_stick_saturation_witness :
    to_stick_value (.finite (-2)) = 0 ∧ to_stick_value (.finite 2) = 255 :=
  ⟨(C10_stick_saturation (-2)).1 (by norm_num),
   (C10_stick_saturation 2).2.1 (by norm_num)⟩
